import Mathlib

/-!
Verification development for the FHIR facade service (`app/` package).

The definitions below are a shallow embedding of the service's pure logic:

* `app/resources/patient.py`: the FHIR date regex (`validate_fhir_date`),
  the birthdate search-range expansion inside `search_patients`, and the
  validation pipeline of `create_patient`;
* `app/resources/observation.py`: the row-to-resource mappers
  (`bp_to_observation`, `hr_to_observation`), the bundle assembler
  (`to_bundle`), and the query construction of `search_observations`;
* `app/utils.py`: `create_operation_outcome`.

Python strings are modelled as `String` / `List Char`, with character
tests expressed on code points (`Char.toNat`); Python's `datetime.date`
is modelled by `PyDate` (proleptic Gregorian calendar, as documented for
the `datetime` module); `None`-able values are `Option`; error responses
become explicit constructors.  The SQLAlchemy query objects are modelled
as the data of the accumulated column constraints plus an evaluation
function on rows.
-/

/-- Code-point test for the regex class `[0-9]`. -/
def dig (c : Char) : Bool := 48 ≤ c.toNat && c.toNat ≤ 57

/-- Code-point test for the regex class `[1-9]`. -/
def nzdig (c : Char) : Bool := 49 ≤ c.toNat && c.toNat ≤ 57

/-- Characters stripped by Python's `int(str)` conversion
(space, tab, newline, carriage return, vertical tab, form feed). -/
def isPyWS (c : Char) : Bool :=
  c.toNat = 32 || c.toNat = 9 || c.toNat = 10 || c.toNat = 13 || c.toNat = 11 || c.toNat = 12

/-- Model of Python's `str.split(sep)` for a one-character separator,
given by its code point.  `"".split(sep)` is `[""]`, matching Python. -/
def pySplit (sep : Nat) : List Char → List (List Char)
  | [] => [[]]
  | c :: rest =>
    if c.toNat = sep then [] :: pySplit sep rest
    else
      match pySplit sep rest with
      | [] => [[c]]
      | p :: ps => (c :: p) :: ps

/-- Numeric value of a digit string (most significant digit first). -/
def digitsVal (cs : List Char) : Nat :=
  cs.foldl (fun acc c => acc * 10 + (c.toNat - 48)) 0

/-- Whitespace stripped from both ends, as Python's `str.strip()` /
`int()` do before conversion. -/
def pyStrip (cs : List Char) : List Char :=
  ((cs.dropWhile isPyWS).reverse.dropWhile isPyWS).reverse

/-- Model of Python's `int(str)`: strips surrounding whitespace, allows one
leading sign, then a non-empty run of decimal digits; anything else raises
`ValueError`, modelled as `none`.  (Underscore digit grouping is not
modelled; no input in this code base contains it.) -/
def pyIntOpt (cs : List Char) : Option Int :=
  match pyStrip cs with
  | [] => none
  | c :: rest =>
    if c.toNat = 45 then
      if rest ≠ [] ∧ rest.all dig then some (-(digitsVal rest : Int)) else none
    else if c.toNat = 43 then
      if rest ≠ [] ∧ rest.all dig then some ((digitsVal rest : Int)) else none
    else
      if (c :: rest).all dig then some ((digitsVal (c :: rest) : Int)) else none

/-- Model of Python's `str.startswith` on character lists. -/
def isPrefixChars : List Char → List Char → Bool
  | [], _ => true
  | _ :: _, [] => false
  | p :: ps, c :: cs => p = c && isPrefixChars ps cs

/-- Model of Python's `datetime.date`: a proleptic-Gregorian calendar day.
The source only ever constructs values with a valid year/month/day, so the
constructor's range checks are not re-modelled as a separate failure. -/
structure PyDate where
  year : Int
  month : Int
  day : Int
deriving DecidableEq, Repr

/-- Leap-year test of the proleptic Gregorian calendar, as used by
Python's `datetime`/`calendar` modules. -/
def isLeap (y : Int) : Bool := (y % 4 = 0 && y % 100 ≠ 0) || y % 400 = 0

/-- Number of days in a month of the proleptic Gregorian calendar
(the calendar backing Python's `datetime.date`). -/
def daysInMonth (y m : Int) : Int :=
  if m = 2 then (if isLeap y then 29 else 28)
  else if m = 4 || m = 6 || m = 9 || m = 11 then 30
  else 31

/-- Model of `some_date - timedelta(days=1)`: the previous calendar day. -/
def predDate (d : PyDate) : PyDate :=
  if 1 < d.day then ⟨d.year, d.month, d.day - 1⟩
  else if 1 < d.month then ⟨d.year, d.month - 1, daysInMonth d.year (d.month - 1)⟩
  else ⟨d.year - 1, 12, 31⟩

/-- Calendar order on dates (used for the inclusive range bounds produced
by the birthdate search: `date_of_birth >= start`, `date_of_birth <= end`). -/
def PyDate.le (a b : PyDate) : Bool :=
  a.year < b.year ||
    (a.year = b.year && (a.month < b.month || (a.month = b.month && a.day ≤ b.day)))

/-- Two-digit zero-padded rendering, as in ISO date strings. -/
def pad2 (n : Nat) : String := if n < 10 then "0" ++ toString n else toString n

/-- Four-digit zero-padded rendering, as in ISO date strings. -/
def pad4 (n : Nat) : String :=
  (if n < 10 then "000" else if n < 100 then "00" else if n < 1000 then "0" else "") ++ toString n

/-- Model of `datetime.date.isoformat()`: `YYYY-MM-DD`. -/
def PyDate.isoformat (d : PyDate) : String :=
  pad4 d.year.toNat ++ "-" ++ pad2 d.month.toNat ++ "-" ++ pad2 d.day.toNat

/-- Year alternative of the regex in `validate_fhir_date`
(`patient.py`): `[0-9]([0-9]([0-9][1-9]|[1-9]0)|[1-9]00)|[1-9]000`. -/
def reYear (a b c d : Char) : Bool :=
  (dig a && ((dig b && ((dig c && nzdig d) || (nzdig c && d.toNat = 48)))
      || (nzdig b && c.toNat = 48 && d.toNat = 48)))
    || (nzdig a && b.toNat = 48 && c.toNat = 48 && d.toNat = 48)

/-- Month alternative of the regex in `validate_fhir_date`: `0[1-9]|1[0-2]`. -/
def reMonth (a b : Char) : Bool :=
  (a.toNat = 48 && nzdig b) || (a.toNat = 49 && (48 ≤ b.toNat && b.toNat ≤ 50))

/-- Day alternative of the regex in `validate_fhir_date`:
`0[1-9]|[1-2][0-9]|3[0-1]`. -/
def reDay (a b : Char) : Bool :=
  (a.toNat = 48 && nzdig b) || ((49 ≤ a.toNat && a.toNat ≤ 50) && dig b)
    || (a.toNat = 51 && (b.toNat = 48 || b.toNat = 49))

/-- The anchored body of the `validate_fhir_date` regex: a year, optionally
followed by `-MM`, optionally further followed by `-DD` (code point 45
is `-`). -/
def fhirDateCore : List Char → Bool
  | [a, b, c, d] => reYear a b c d
  | [a, b, c, d, s1, e, f] => s1.toNat = 45 && reYear a b c d && reMonth e f
  | [a, b, c, d, s1, e, f, s2, g, h] =>
    s1.toNat = 45 && s2.toNat = 45 && reYear a b c d && reMonth e f && reDay g h
  | _ => false

/-- Model of `validate_fhir_date` (`patient.py`): `re.match` of the anchored
pattern.  Python's `$` also matches just before a single trailing newline,
so a trailing `\n` (code point 10) is admitted as well. -/
def validate_fhir_date (s : String) : Bool :=
  fhirDateCore s.toList ||
    (match s.toList.reverse with
     | c :: rest => c.toNat = 10 && fhirDateCore rest.reverse
     | [] => false)

/-- Model of `datetime.date.fromisoformat` for the `YYYY-MM-DD` layout, the
only layout reachable in this code base: ten characters, dashes at
positions 4 and 7, digits elsewhere, denoting a real calendar day. -/
def fromisoChars : List Char → Option PyDate
  | [a, b, c, d, s1, e, f, s2, g, h] =>
    if s1.toNat = 45 ∧ s2.toNat = 45 ∧ [a, b, c, d].all dig ∧ [e, f].all dig ∧ [g, h].all dig then
      let y : Int := digitsVal [a, b, c, d]
      let m : Int := digitsVal [e, f]
      let dd : Int := digitsVal [g, h]
      if 1 ≤ y ∧ 1 ≤ m ∧ m ≤ 12 ∧ 1 ≤ dd ∧ dd ≤ daysInMonth y m then some ⟨y, m, dd⟩
      else none
    else none
  | _ => none

/-- String-level wrapper of `fromisoChars`. -/
def fromisoformat (s : String) : Option PyDate := fromisoChars s.toList

/-- The birthdate constraint placed on `PatientModel.date_of_birth` by the
`search_patients` endpoint, or the error/exception it produces instead.
`pyError` marks an uncaught Python exception (an `int(...)` failure outside
any `try`), which the validated code paths never reach. -/
inductive BirthdateFilter where
  | range (lo hi : PyDate)
  | eq (d : PyDate)
  | invalidFormat
  | invalidCalendar
  | pyError
deriving DecidableEq, Repr

/-- The birthdate branch of `search_patients` (`patient.py`): validate the
format, split on `-`, and expand a year to `[Jan 1, Dec 31]`, a year-month
to `[first of month, first of next month minus one day]` (December is
special-cased to day 31), and a full date to an equality after
`date.fromisoformat`. -/
def birthdateFilter (s : String) : BirthdateFilter :=
  if validate_fhir_date s then
    let parts := pySplit 45 s.toList
    if parts.length = 1 then
      match pyIntOpt (parts.headD []) with
      | some y => .range ⟨y, 1, 1⟩ ⟨y, 12, 31⟩
      | none => .pyError
    else if parts.length = 2 then
      match pyIntOpt (parts.headD []), pyIntOpt (parts.getD 1 []) with
      | some y, some m =>
        .range ⟨y, m, 1⟩ (if m = 12 then ⟨y, 12, 31⟩ else predDate ⟨y, m + 1, 1⟩)
      | _, _ => .pyError
    else
      match fromisoChars s.toList with
      | some d => .eq d
      | none => .invalidCalendar
  else .invalidFormat

/-- Row-level meaning of a `BirthdateFilter`: a range is the conjunction of
the two inclusive `where` clauses `date_of_birth >= lo` and
`date_of_birth <= hi`; a full date is the single equality clause.  The
error outcomes never reach the database, so they match nothing. -/
def BirthdateFilter.applyTo : BirthdateFilter → PyDate → Bool
  | .range lo hi, dob => lo.le dob && dob.le hi
  | .eq d, dob => dob = d
  | _, _ => false

/-- Row of the `blood_pressure` table (`models.py`). -/
structure BPRow where
  id : Int
  patient_id : Int
  systolic : ℚ
  diastolic : ℚ
  date : PyDate
deriving DecidableEq

/-- Row of the `heart_rate` table (`models.py`). -/
structure HRRow where
  id : Int
  patient_id : Int
  rate : ℚ
  date : PyDate
deriving DecidableEq

/-- A `(system, code, display)` coding triple. -/
structure Coding where
  system : String
  code : String
  display : String
deriving DecidableEq

/-- A FHIR value quantity. -/
structure Quantity where
  value : ℚ
  unit : String
  system : String
  code : String
deriving DecidableEq

/-- One component of a multi-component observation. -/
structure ObsComponent where
  code : List Coding
  valueQuantity : Quantity
deriving DecidableEq

/-- The fields of the FHIR `Observation` resources this service emits. -/
structure Observation where
  id : String
  status : String
  code : List Coding
  subject : String
  effectiveDateTime : String
  component : List ObsComponent
  valueQuantity : Option Quantity
deriving DecidableEq

/-- Model of `bp_to_observation` (`observation.py`): a blood-pressure row
becomes a two-component observation (systolic, diastolic), both in mmHg. -/
def bp_to_observation (bp : BPRow) : Observation :=
  { id := "bp-" ++ toString bp.id
    status := "final"
    code := [⟨"http://loinc.org", "85354-9", "Blood pressure panel"⟩]
    subject := "Patient/" ++ toString bp.patient_id
    effectiveDateTime := bp.date.isoformat
    component :=
      [⟨[⟨"http://loinc.org", "8480-6", "Systolic blood pressure"⟩],
        ⟨bp.systolic, "mmHg", "http://unitsofmeasure.org", "mm[Hg]"⟩⟩,
       ⟨[⟨"http://loinc.org", "8462-4", "Diastolic blood pressure"⟩],
        ⟨bp.diastolic, "mmHg", "http://unitsofmeasure.org", "mm[Hg]"⟩⟩]
    valueQuantity := none }

/-- Model of `hr_to_observation` (`observation.py`): a heart-rate row
becomes a single-quantity observation in beats/minute. -/
def hr_to_observation (hr : HRRow) : Observation :=
  { id := "hr-" ++ toString hr.id
    status := "final"
    code := [⟨"http://loinc.org", "8867-4", "Heart rate"⟩]
    subject := "Patient/" ++ toString hr.patient_id
    effectiveDateTime := hr.date.isoformat
    component := []
    valueQuantity := some ⟨hr.rate, "beats/minute", "http://unitsofmeasure.org", "/min"⟩ }

/-- A bundle entry wrapping one resource.  (`BundleEntry.model_construct`
wraps the serialized resource; JSON encoding is transport mechanics and is
out of scope, so the resource value itself is carried.) -/
structure BundleEntry (α : Type) where
  resource : α
deriving DecidableEq

/-- The bundle envelope produced by `Bundle.model_construct`. -/
structure Bundle (α : Type) where
  type_ : String
  total : Nat
  entry : List (BundleEntry α)
deriving DecidableEq

/-- Model of `to_bundle` (identical in `patient.py` and `observation.py`):
total is the list length and each resource is wrapped in order. -/
def to_bundle {α : Type} (resources : List α) (type_ : String) : Bundle α :=
  ⟨type_, resources.length, resources.map BundleEntry.mk⟩

/-- The column constraints accumulated on one observation table's `select`
by `search_observations` before execution. -/
structure ObsQuery where
  patientFilter : Option Int
  dateFilter : Option PyDate
deriving DecidableEq, Repr

/-- Python truthiness of the parsed `patient_id` (`if patient_id:`):
`None` and `0` are both falsy. -/
def pyTruthyInt : Option Int → Bool
  | none => false
  | some n => if n = 0 then false else true

/-- The guard `code and code != fixed` that nulls out a table's query:
true only for a non-empty code different from the table's fixed code. -/
def codeMismatch (code : Option String) (fixed : String) : Bool :=
  match code with
  | none => false
  | some c => if c = "" then false else if c = fixed then false else true

/-- The blood-pressure query of `search_observations`: optional patient and
date `where` clauses, then replaced by `None` (here `none`, the "excluded"
marker) when a non-empty code other than `85354-9` was supplied. -/
def build_bp_query (pid : Option Int) (sd : Option PyDate) (code : Option String) :
    Option ObsQuery :=
  let q : ObsQuery := ⟨none, none⟩
  let q := if pyTruthyInt pid then { q with patientFilter := pid } else q
  let q := if sd.isSome then { q with dateFilter := sd } else q
  if codeMismatch code "85354-9" then none else some q

/-- The heart-rate query of `search_observations`; its fixed code is
`8867-4`. -/
def build_hr_query (pid : Option Int) (sd : Option PyDate) (code : Option String) :
    Option ObsQuery :=
  let q : ObsQuery := ⟨none, none⟩
  let q := if pyTruthyInt pid then { q with patientFilter := pid } else q
  let q := if sd.isSome then { q with dateFilter := sd } else q
  if codeMismatch code "8867-4" then none else some q

/-- Row-level meaning of the accumulated `where` clauses: equality on
`patient_id` and equality on `date`, each only when present. -/
def ObsQuery.matchesBP (q : ObsQuery) (row : BPRow) : Bool :=
  (match q.patientFilter with
   | some pid => row.patient_id = pid
   | none => true) &&
  (match q.dateFilter with
   | some d => row.date = d
   | none => true)

/-- Row-level meaning of the heart-rate `where` clauses. -/
def ObsQuery.matchesHR (q : ObsQuery) (row : HRRow) : Bool :=
  (match q.patientFilter with
   | some pid => row.patient_id = pid
   | none => true) &&
  (match q.dateFilter with
   | some d => row.date = d
   | none => true)

/-- The 400 errors `search_observations` can return while parsing its
parameters. -/
inductive ObsSearchError where
  | invalidDateFormat
  | invalidPatientRefFormat
  | invalidPatientId
deriving DecidableEq, Repr

/-- Result of an endpoint: an error response or a value. -/
inductive SearchOutcome (α : Type) where
  | err (e : ObsSearchError)
  | ok (val : α)
deriving DecidableEq

/-- Model of Python's `datetime.strptime(s, "%Y-%m-%d").date()`: CPython's
`_strptime` compiles the format to a regex in which `%Y` is exactly four
digits and `%m`/`%d` are one or two digits, joined by literal dashes and
matched against the whole string; `date(...)` then rejects year 0 and
non-existent calendar days. -/
def strptimeYmd (s : String) : Option PyDate :=
  match pySplit 45 s.toList with
  | [p, q, r] =>
    if p.length = 4 ∧ p.all dig ∧ q ≠ [] ∧ q.length ≤ 2 ∧ q.all dig ∧
        r ≠ [] ∧ r.length ≤ 2 ∧ r.all dig then
      let y : Int := digitsVal p
      let m : Int := digitsVal q
      let d : Int := digitsVal r
      if 1 ≤ y ∧ 1 ≤ m ∧ m ≤ 12 ∧ 1 ≤ d ∧ d ≤ daysInMonth y m then some ⟨y, m, d⟩
      else none
    else none
  | _ => none

/-- The `date` parameter handling of `search_observations`: absent or empty
is skipped (`if date:`), otherwise `strptime` must parse a full
`YYYY-MM-DD` value or the search fails with the invalid-date-format
error. -/
def parse_search_date (date : Option String) : SearchOutcome (Option PyDate) :=
  match date with
  | none => .ok none
  | some s =>
    if s = "" then .ok none
    else
      match strptimeYmd s with
      | some d => .ok (some d)
      | none => .err .invalidDateFormat

/-- The `patient` parameter handling of `search_observations`: absent or
empty is skipped; the value must start with `Patient/`; the segment after
the first `/` must convert with `int(...)` (an `IndexError` or
`ValueError` yields the invalid-patient-id error). -/
def parse_patient_ref (patient : Option String) : SearchOutcome (Option Int) :=
  match patient with
  | none => .ok none
  | some s =>
    if s = "" then .ok none
    else if isPrefixChars "Patient/".toList s.toList then
      match (pySplit 47 s.toList).get? 1 with
      | none => .err .invalidPatientId
      | some part =>
        match pyIntOpt part with
        | some n => .ok (some n)
        | none => .err .invalidPatientId
    else .err .invalidPatientRefFormat

/-- Model of `search_observations` (`observation.py`): parse the date, then
the patient reference; build both table queries; run each query that was
not excluded; append blood-pressure results then heart-rate results; and
bundle them. -/
def search_observations (bpRows : List BPRow) (hrRows : List HRRow)
    (patient code date : Option String) : SearchOutcome (Bundle Observation) :=
  match parse_search_date date with
  | .err e => .err e
  | .ok sd =>
    match parse_patient_ref patient with
    | .err e => .err e
    | .ok pid =>
      let bpObs :=
        match build_bp_query pid sd code with
        | none => []
        | some q => (bpRows.filter q.matchesBP).map bp_to_observation
      let hrObs :=
        match build_hr_query pid sd code with
        | none => []
        | some q => (hrRows.filter q.matchesHR).map hr_to_observation
      .ok (to_bundle (bpObs ++ hrObs) "searchset")

/-- The three runtime representations the inbound `birthDate` may arrive
in (`datetime.date`, a FHIR date type exposing `as_json()`, or a plain
string), plus anything else, which `create_patient` answers with a 500. -/
inductive PyBirthDate where
  | date (d : PyDate)
  | fhirDate (s : String)
  | str (s : String)
  | other
deriving DecidableEq

/-- One entry of the inbound resource's `name` list. -/
structure HumanName where
  family : Option String
  given : List String
deriving DecidableEq

/-- The fields of the inbound `Patient` resource that `create_patient`
reads. -/
structure PatientIn where
  name : List HumanName
  birthDate : Option PyBirthDate
deriving DecidableEq

/-- What `create_patient` does before touching storage: either it returns
an error response (no insert is attempted), or it reaches
`db.add`/`db.commit` with the given column values.  The commit itself is
the storage collaborator's; its failure path (rollback plus a 500) is
outside this model. -/
inductive CreateOutcome where
  | reject (statusCode : Nat) (detail : String)
  | insert (first_name last_name : String) (date_of_birth : Option PyDate)
deriving DecidableEq, Repr

/-- The `birthDate` validation chain of `create_patient`, after the value
has been rendered to a string: general format check, full-date strictness
check (`len(date_parts) != 3`), then `date.fromisoformat`. -/
def validateBirthDateStr (first_name last_name : String) (s : String) : CreateOutcome :=
  if validate_fhir_date s then
    if (pySplit 45 s.toList).length ≠ 3 then .reject 400 "Partial dates not supported"
    else
      match fromisoChars s.toList with
      | some d => .insert first_name last_name (some d)
      | none => .reject 400 "Invalid birth date"
  else .reject 400 "Invalid birthDate format"

/-- Model of `create_patient` (`patient.py`): reject when the name list is
empty, the first entry's family is falsy (`None` or `""`), or its given
list is empty; then resolve the polymorphic `birthDate` to a string (a
missing `birthDate` skips all date validation and inserts a null
`date_of_birth`); validate it; and insert. -/
def create_patient (r : PatientIn) : CreateOutcome :=
  match r.name with
  | [] => .reject 400 "Invalid Patient resource"
  | n0 :: _ =>
    match n0.family with
    | none => .reject 400 "Invalid Patient resource"
    | some fam =>
      if fam = "" then .reject 400 "Invalid Patient resource"
      else
        match n0.given with
        | [] => .reject 400 "Invalid Patient resource"
        | g0 :: _ =>
          match r.birthDate with
          | none => .insert g0 fam none
          | some (.date d) => validateBirthDateStr g0 fam d.isoformat
          | some (.fhirDate s) => validateBirthDateStr g0 fam s
          | some (.str s) => validateBirthDateStr g0 fam s
          | some .other => .reject 500 "Internal Server Error"

/-- One issue of an `OperationOutcome` (`utils.py`). -/
structure OutcomeIssue where
  severity : String
  code : String
  diagnostics : String
  detailsText : String
deriving DecidableEq, Repr

/-- Python's `diagnostic or detail`: the diagnostic unless it is falsy
(`None` or the empty string). -/
def pyOrStr (o : Option String) (d : String) : String :=
  match o with
  | some s => if s = "" then d else s
  | none => d

/-- Model of `create_operation_outcome` (`utils.py`): map the status code
to an issue severity and code, with the diagnostics text defaulting to the
detail message, and pass the status code through. -/
def create_operation_outcome (status_code : Nat) (detail : String)
    (diagnostic : Option String) : OutcomeIssue × Nat :=
  let sev_code : String × String :=
    if 500 ≤ status_code then ("fatal", "exception")
    else if 400 ≤ status_code then
      ("error",
        if status_code = 404 then "not-found"
        else if status_code = 400 then "invalid"
        else if status_code = 403 then "forbidden"
        else if status_code = 401 then "security"
        else "processing")
    else ("warning", "informational")
  (⟨sev_code.1, sev_code.2, pyOrStr diagnostic detail, detail⟩, status_code)

/-- Severity table as the spec states it: status ≥ 500 is fatal,
400 ≤ status < 500 is error, status < 400 is warning. -/
def specSeverity (st : Nat) : String :=
  if 500 ≤ st then "fatal" else if 400 ≤ st then "error" else "warning"

/-- Issue-code table as the spec states it, selected by exact status
within the 4xx class. -/
def specCode (st : Nat) : String :=
  if 500 ≤ st then "exception"
  else if st = 404 then "not-found"
  else if st = 400 then "invalid"
  else if st = 403 then "forbidden"
  else if st = 401 then "security"
  else if 400 ≤ st then "processing"
  else "informational"

/-- Diagnostics as the amended spec states it: the supplied diagnostic
when present and non-empty, otherwise the detail message. -/
def specDiagnostics (diagnostic : Option String) (detail : String) : String :=
  match diagnostic with
  | some s => if s ≠ "" then s else detail
  | none => detail

/-- Spec-side year rule for the amended date grammar: four digits, not
`0000`. -/
def specYear4 (a b c d : Char) : Bool :=
  dig a && dig b && dig c && dig d &&
    !(a.toNat = 48 && b.toNat = 48 && c.toNat = 48 && d.toNat = 48)

/-- Spec-side month rule: two digits with value in `[1, 12]`. -/
def specMonth2 (a b : Char) : Bool :=
  dig a && dig b && 1 ≤ 10 * (a.toNat - 48) + (b.toNat - 48) &&
    10 * (a.toNat - 48) + (b.toNat - 48) ≤ 12

/-- Spec-side day rule: two digits with value in `[1, 31]`. -/
def specDay2 (a b : Char) : Bool :=
  dig a && dig b && 1 ≤ 10 * (a.toNat - 48) + (b.toNat - 48) &&
    10 * (a.toNat - 48) + (b.toNat - 48) ≤ 31

/-- Spec-side body of the amended date grammar, mirroring the three
accepted layouts with the value-based year/month/day rules. -/
def fhirSpecCore : List Char → Bool
  | [a, b, c, d] => specYear4 a b c d
  | [a, b, c, d, s1, e, f] => s1.toNat = 45 && specYear4 a b c d && specMonth2 e f
  | [a, b, c, d, s1, e, f, s2, g, h] =>
    s1.toNat = 45 && s2.toNat = 45 && specYear4 a b c d && specMonth2 e f && specDay2 g h
  | _ => false

/-- Spec-side amended date grammar at the string level, with the same
trailing-newline allowance that Python's `$` anchor gives the source. -/
def fhir_date_spec (s : String) : Bool :=
  fhirSpecCore s.toList ||
    (match s.toList.reverse with
     | c :: rest => c.toNat = 10 && fhirSpecCore rest.reverse
     | [] => false)

/-! ### Character-class and splitting lemmas -/

theorem dig_ne_sep {c : Char} (h : dig c = true) : c.toNat ≠ 45 := by
  simp [dig] at h; omega

theorem dig_not_ws {c : Char} (h : dig c = true) : isPyWS c = false := by
  simp [dig] at h; simp [isPyWS]; omega

theorem reYear_digits {a b c d : Char} (h : reYear a b c d = true) :
    dig a = true ∧ dig b = true ∧ dig c = true ∧ dig d = true := by
  simp [reYear, dig, nzdig] at h ⊢; omega

theorem reMonth_val {e f : Char} (h : reMonth e f = true) :
    dig e = true ∧ dig f = true ∧ 1 ≤ digitsVal [e, f] ∧ digitsVal [e, f] ≤ 12 := by
  simp [reMonth, dig, nzdig, digitsVal] at h ⊢; omega

theorem reDay_digits {g h2 : Char} (h : reDay g h2 = true) :
    dig g = true ∧ dig h2 = true := by
  simp [reDay, dig, nzdig] at h ⊢; omega

theorem pySplit_no_sep {sep : Nat} {l : List Char} (h : ∀ c ∈ l, c.toNat ≠ sep) :
    pySplit sep l = [l] := by
  induction l with
  | nil => rfl
  | cons c r ih =>
    have hc : c.toNat ≠ sep := h c (List.mem_cons_self c r)
    have ih' := ih (fun x hx => h x (List.mem_cons_of_mem c hx))
    simp [pySplit, hc, ih']

theorem pySplit_sep_append {sep : Nat} {l1 l2 : List Char} {d : Char}
    (h1 : ∀ c ∈ l1, c.toNat ≠ sep) (hd : d.toNat = sep) :
    pySplit sep (l1 ++ d :: l2) = l1 :: pySplit sep l2 := by
  induction l1 with
  | nil => simp [pySplit, hd]
  | cons c r ih =>
    have hc : c.toNat ≠ sep := h1 c (List.mem_cons_self c r)
    have ih' := ih (fun x hx => h1 x (List.mem_cons_of_mem c hx))
    simp [pySplit, hc, ih']

theorem dropWhile_ws_of_all_dig {l : List Char} (h : l.all dig = true) :
    l.dropWhile isPyWS = l := by
  cases l with
  | nil => rfl
  | cons c r =>
    have hc : dig c = true := by simp [List.all_cons] at h; exact h.1
    rw [List.dropWhile_cons, dig_not_ws hc]
    simp

theorem pyStrip_all_dig {l : List Char} (h : l.all dig = true) : pyStrip l = l := by
  unfold pyStrip
  rw [dropWhile_ws_of_all_dig h,
    dropWhile_ws_of_all_dig (by rw [List.all_reverse]; exact h), List.reverse_reverse]

theorem pyIntOpt_digits {l : List Char} (hne : l ≠ []) (h : l.all dig = true) :
    pyIntOpt l = some ((digitsVal l : Nat) : Int) := by
  unfold pyIntOpt
  rw [pyStrip_all_dig h]
  cases l with
  | nil => exact absurd rfl hne
  | cons c r =>
    have hc : dig c = true := by simp [List.all_cons] at h; exact h.1
    have h45 : c.toNat ≠ 45 := dig_ne_sep hc
    have h43 : c.toNat ≠ 43 := by simp [dig] at hc; omega
    simp [h45, h43, h]

theorem pyStrip_digits_nl {l : List Char} {nl : Char} (hne : l ≠ [])
    (h : l.all dig = true) (hnl : nl.toNat = 10) : pyStrip (l ++ [nl]) = l := by
  unfold pyStrip
  have hd1 : (l ++ [nl]).dropWhile isPyWS = l ++ [nl] := by
    cases l with
    | nil => exact absurd rfl hne
    | cons c r =>
      have hc : dig c = true := by simp [List.all_cons] at h; exact h.1
      rw [List.cons_append, List.dropWhile_cons, dig_not_ws hc]
      simp
  rw [hd1, List.reverse_append]
  have hws : isPyWS nl = true := by simp [isPyWS, hnl]
  have : ([nl].reverse ++ l.reverse).dropWhile isPyWS = l.reverse := by
    simp only [List.reverse_cons, List.reverse_nil, List.nil_append, List.cons_append,
      List.dropWhile_cons, hws, if_true, List.nil_append]
    exact dropWhile_ws_of_all_dig (by rw [List.all_reverse]; exact h)
  rw [this, List.reverse_reverse]

theorem pyIntOpt_digits_nl {l : List Char} {nl : Char} (hne : l ≠ [])
    (h : l.all dig = true) (hnl : nl.toNat = 10) :
    pyIntOpt (l ++ [nl]) = some ((digitsVal l : Nat) : Int) := by
  unfold pyIntOpt
  rw [pyStrip_digits_nl hne h hnl]
  cases l with
  | nil => exact absurd rfl hne
  | cons c r =>
    have hc : dig c = true := by simp [List.all_cons] at h; exact h.1
    have h45 : c.toNat ≠ 45 := dig_ne_sep hc
    have h43 : c.toNat ≠ 43 := by simp [dig] at hc; omega
    simp [h45, h43, h]

/-! ### Shape analysis of the date regex -/

theorem fhirDateCore_shapes {cs : List Char} (h : fhirDateCore cs = true) :
    (∃ a b c d, cs = [a, b, c, d] ∧ reYear a b c d = true) ∨
    (∃ a b c d s1 e f, cs = [a, b, c, d, s1, e, f] ∧ s1.toNat = 45 ∧
      reYear a b c d = true ∧ reMonth e f = true) ∨
    (∃ a b c d s1 e f s2 g h2, cs = [a, b, c, d, s1, e, f, s2, g, h2] ∧
      s1.toNat = 45 ∧ s2.toNat = 45 ∧ reYear a b c d = true ∧ reMonth e f = true ∧
      reDay g h2 = true) := by
  rcases cs with _ | ⟨a, _ | ⟨b, _ | ⟨c, _ | ⟨d, _ | ⟨s1, _ | ⟨e, _ | ⟨f, _ |
    ⟨s2, _ | ⟨g, _ | ⟨h2, _ | ⟨k, rest⟩⟩⟩⟩⟩⟩⟩⟩⟩⟩⟩
  · exact absurd h Bool.false_ne_true
  · exact absurd h Bool.false_ne_true
  · exact absurd h Bool.false_ne_true
  · exact absurd h Bool.false_ne_true
  · exact Or.inl ⟨a, b, c, d, rfl, h⟩
  · exact absurd h Bool.false_ne_true
  · exact absurd h Bool.false_ne_true
  · simp only [fhirDateCore, Bool.and_eq_true, decide_eq_true_eq] at h
    exact Or.inr (Or.inl ⟨a, b, c, d, s1, e, f, rfl, h.1.1, h.1.2, h.2⟩)
  · exact absurd h Bool.false_ne_true
  · exact absurd h Bool.false_ne_true
  · simp only [fhirDateCore, Bool.and_eq_true, decide_eq_true_eq] at h
    exact Or.inr (Or.inr ⟨a, b, c, d, s1, e, f, s2, g, h2, rfl,
      h.1.1.1.1, h.1.1.1.2, h.1.1.2, h.1.2, h.2⟩)
  · exact absurd h Bool.false_ne_true

theorem validate_fhir_date_cases {s : String} (h : validate_fhir_date s = true) :
    fhirDateCore s.toList = true ∨
    ∃ cs nl, s.toList = cs ++ [nl] ∧ nl.toNat = 10 ∧ fhirDateCore cs = true := by
  unfold validate_fhir_date at h
  rw [Bool.or_eq_true] at h
  rcases h with h | h
  · exact Or.inl h
  · right
    cases hrev : s.toList.reverse with
    | nil => rw [hrev] at h; simp at h
    | cons c rest =>
      rw [hrev] at h
      simp only [Bool.and_eq_true, decide_eq_true_eq] at h
      refine ⟨rest.reverse, c, ?_, h.1, h.2⟩
      have h2 := congrArg List.reverse hrev
      rw [List.reverse_reverse] at h2
      rw [h2, List.reverse_cons]

/-! ### Computation lemmas for the birthdate search filter -/

theorem birthdateFilter_year {s : String} {p : List Char} {y : Int}
    (hv : validate_fhir_date s = true) (hsplit : pySplit 45 s.toList = [p])
    (hpy : pyIntOpt p = some y) :
    birthdateFilter s = .range ⟨y, 1, 1⟩ ⟨y, 12, 31⟩ := by
  have hsplit' : pySplit 45 s.data = [p] := hsplit
  unfold birthdateFilter
  simp [hv, hsplit', hpy]

theorem birthdateFilter_month {s : String} {p q : List Char} {y m : Int}
    (hv : validate_fhir_date s = true) (hsplit : pySplit 45 s.toList = [p, q])
    (hpy1 : pyIntOpt p = some y) (hpy2 : pyIntOpt q = some m)
    (hm1 : 1 ≤ m) (hm2 : m ≤ 12) :
    birthdateFilter s = .range ⟨y, m, 1⟩ ⟨y, m, daysInMonth y m⟩ := by
  have hsplit' : pySplit 45 s.data = [p, q] := hsplit
  unfold birthdateFilter
  simp [hv, hsplit', hpy1, hpy2]
  by_cases h12 : m = 12
  · subst h12
    have h31 : daysInMonth y 12 = 31 := by norm_num [daysInMonth]
    simp [h31]
  · have hlt : 1 < m + 1 := by omega
    have hpred : predDate ⟨y, m + 1, 1⟩ = ⟨y, m, daysInMonth y m⟩ := by
      unfold predDate
      simp only [show ¬((1 : Int) < 1) from by omega, if_false, hlt, if_true]
      norm_num
    simp [h12, hpred]

theorem birthdateFilter_full {s : String} {p q r : List Char} {d : PyDate}
    (hv : validate_fhir_date s = true) (hsplit : pySplit 45 s.toList = [p, q, r])
    (hiso : fromisoChars s.toList = some d) :
    birthdateFilter s = .eq d := by
  have hsplit' : pySplit 45 s.data = [p, q, r] := hsplit
  have hiso' : fromisoChars s.data = some d := hiso
  unfold birthdateFilter
  simp [hv, hsplit', hiso']

/-- Central analysis of the birthdate branch of `search_patients`: for every
string accepted by `validate_fhir_date`, a one-part value expands to the
whole-year range, a two-part value expands to the whole-month range whose
end day is `daysInMonth`, and a value `date.fromisoformat` accepts yields
an equality constraint. -/
theorem birthdateFilter_expansion (s : String) (hv : validate_fhir_date s = true) :
    (∀ p, pySplit 45 s.toList = [p] →
      ∃ y, pyIntOpt p = some y ∧ birthdateFilter s = .range ⟨y, 1, 1⟩ ⟨y, 12, 31⟩) ∧
    (∀ p q, pySplit 45 s.toList = [p, q] →
      ∃ y m, pyIntOpt p = some y ∧ pyIntOpt q = some m ∧ 1 ≤ m ∧ m ≤ 12 ∧
        birthdateFilter s = .range ⟨y, m, 1⟩ ⟨y, m, daysInMonth y m⟩) ∧
    (∀ dt, fromisoformat s = some dt → birthdateFilter s = .eq dt) := by
  rcases validate_fhir_date_cases hv with hcore | ⟨cs0, nl, hs, hnl, hcore⟩
  · rcases fhirDateCore_shapes hcore with ⟨a, b, c, d, hcs, hy⟩ |
      ⟨a, b, c, d, s1, e, f, hcs, hs1, hy, hm⟩ |
      ⟨a, b, c, d, s1, e, f, s2, g, h2, hcs, hs1, hs2, hy, hm, hd2⟩
    · -- YYYY
      obtain ⟨ha, hb, hc, hd⟩ := reYear_digits hy
      have hall : [a, b, c, d].all dig = true := by simp [ha, hb, hc, hd]
      have hmem4 : ∀ x ∈ [a, b, c, d], x.toNat ≠ 45 := by
        intro x hx; simp at hx
        rcases hx with rfl | rfl | rfl | rfl
        exacts [dig_ne_sep ha, dig_ne_sep hb, dig_ne_sep hc, dig_ne_sep hd]
      have hsp : pySplit 45 s.toList = [[a, b, c, d]] := by
        rw [hcs]; exact pySplit_no_sep hmem4
      have hpy : pyIntOpt [a, b, c, d] = some ((digitsVal [a, b, c, d] : Nat) : Int) :=
        pyIntOpt_digits (by simp) hall
      refine ⟨?_, ?_, ?_⟩
      · intro p hp
        rw [hsp] at hp; simp at hp; subst hp
        exact ⟨_, hpy, birthdateFilter_year hv hsp hpy⟩
      · intro p q hpq
        rw [hsp] at hpq; simp at hpq
      · intro dt hdt
        unfold fromisoformat at hdt
        rw [hcs] at hdt
        exact absurd hdt (by simp [fromisoChars])
    · -- YYYY-MM
      obtain ⟨ha, hb, hc, hd⟩ := reYear_digits hy
      obtain ⟨he, hf, hm1, hm2⟩ := reMonth_val hm
      have hall4 : [a, b, c, d].all dig = true := by simp [ha, hb, hc, hd]
      have hall2 : [e, f].all dig = true := by simp [he, hf]
      have hmem4 : ∀ x ∈ [a, b, c, d], x.toNat ≠ 45 := by
        intro x hx; simp at hx
        rcases hx with rfl | rfl | rfl | rfl
        exacts [dig_ne_sep ha, dig_ne_sep hb, dig_ne_sep hc, dig_ne_sep hd]
      have hmem2 : ∀ x ∈ [e, f], x.toNat ≠ 45 := by
        intro x hx; simp at hx
        rcases hx with rfl | rfl
        exacts [dig_ne_sep he, dig_ne_sep hf]
      have hsp : pySplit 45 s.toList = [[a, b, c, d], [e, f]] := by
        rw [hcs, show ([a, b, c, d, s1, e, f] : List Char) = [a, b, c, d] ++ s1 :: [e, f] from rfl,
          pySplit_sep_append hmem4 hs1, pySplit_no_sep hmem2]
      have hpy1 : pyIntOpt [a, b, c, d] = some ((digitsVal [a, b, c, d] : Nat) : Int) :=
        pyIntOpt_digits (by simp) hall4
      have hpy2 : pyIntOpt [e, f] = some ((digitsVal [e, f] : Nat) : Int) :=
        pyIntOpt_digits (by simp) hall2
      have hm1' : (1 : Int) ≤ ((digitsVal [e, f] : Nat) : Int) := by exact_mod_cast hm1
      have hm2' : ((digitsVal [e, f] : Nat) : Int) ≤ 12 := by exact_mod_cast hm2
      refine ⟨?_, ?_, ?_⟩
      · intro p hp
        rw [hsp] at hp; simp at hp
      · intro p q hpq
        rw [hsp] at hpq; simp at hpq
        obtain ⟨hp, hq⟩ := hpq; subst hp; subst hq
        exact ⟨_, _, hpy1, hpy2, hm1', hm2',
          birthdateFilter_month hv hsp hpy1 hpy2 hm1' hm2'⟩
      · intro dt hdt
        unfold fromisoformat at hdt
        rw [hcs] at hdt
        exact absurd hdt (by simp [fromisoChars])
    · -- YYYY-MM-DD
      obtain ⟨ha, hb, hc, hd⟩ := reYear_digits hy
      obtain ⟨he, hf, _, _⟩ := reMonth_val hm
      obtain ⟨hg, hh⟩ := reDay_digits hd2
      have hmem4 : ∀ x ∈ [a, b, c, d], x.toNat ≠ 45 := by
        intro x hx; simp at hx
        rcases hx with rfl | rfl | rfl | rfl
        exacts [dig_ne_sep ha, dig_ne_sep hb, dig_ne_sep hc, dig_ne_sep hd]
      have hmem2 : ∀ x ∈ [e, f], x.toNat ≠ 45 := by
        intro x hx; simp at hx
        rcases hx with rfl | rfl
        exacts [dig_ne_sep he, dig_ne_sep hf]
      have hmemd : ∀ x ∈ [g, h2], x.toNat ≠ 45 := by
        intro x hx; simp at hx
        rcases hx with rfl | rfl
        exacts [dig_ne_sep hg, dig_ne_sep hh]
      have hsp : pySplit 45 s.toList = [[a, b, c, d], [e, f], [g, h2]] := by
        rw [hcs, show ([a, b, c, d, s1, e, f, s2, g, h2] : List Char) =
            [a, b, c, d] ++ s1 :: ([e, f] ++ s2 :: [g, h2]) from rfl,
          pySplit_sep_append hmem4 hs1, pySplit_sep_append hmem2 hs2, pySplit_no_sep hmemd]
      refine ⟨?_, ?_, ?_⟩
      · intro p hp
        rw [hsp] at hp; simp at hp
      · intro p q hpq
        rw [hsp] at hpq; simp at hpq
      · intro dt hdt
        exact birthdateFilter_full hv hsp hdt
  · rcases fhirDateCore_shapes hcore with ⟨a, b, c, d, hcs, hy⟩ |
      ⟨a, b, c, d, s1, e, f, hcs, hs1, hy, hm⟩ |
      ⟨a, b, c, d, s1, e, f, s2, g, h2, hcs, hs1, hs2, hy, hm, hd2⟩
    · -- YYYY plus trailing newline
      subst hcs
      obtain ⟨ha, hb, hc, hd⟩ := reYear_digits hy
      have hall : [a, b, c, d].all dig = true := by simp [ha, hb, hc, hd]
      have hmem5 : ∀ x ∈ [a, b, c, d] ++ [nl], x.toNat ≠ 45 := by
        intro x hx; simp at hx
        rcases hx with rfl | rfl | rfl | rfl | rfl
        exacts [dig_ne_sep ha, dig_ne_sep hb, dig_ne_sep hc, dig_ne_sep hd, by omega]
      have hsp : pySplit 45 s.toList = [[a, b, c, d] ++ [nl]] := by
        rw [hs]; exact pySplit_no_sep hmem5
      have hpy : pyIntOpt ([a, b, c, d] ++ [nl]) = some ((digitsVal [a, b, c, d] : Nat) : Int) :=
        pyIntOpt_digits_nl (by simp) hall hnl
      refine ⟨?_, ?_, ?_⟩
      · intro p hp
        rw [hsp] at hp; simp at hp; subst hp
        exact ⟨_, hpy, birthdateFilter_year hv hsp hpy⟩
      · intro p q hpq
        rw [hsp] at hpq; simp at hpq
      · intro dt hdt
        unfold fromisoformat at hdt
        rw [hs] at hdt
        exact absurd hdt (by simp [fromisoChars])
    · -- YYYY-MM plus trailing newline
      subst hcs
      obtain ⟨ha, hb, hc, hd⟩ := reYear_digits hy
      obtain ⟨he, hf, hm1, hm2⟩ := reMonth_val hm
      have hall4 : [a, b, c, d].all dig = true := by simp [ha, hb, hc, hd]
      have hall2 : [e, f].all dig = true := by simp [he, hf]
      have hmem4 : ∀ x ∈ [a, b, c, d], x.toNat ≠ 45 := by
        intro x hx; simp at hx
        rcases hx with rfl | rfl | rfl | rfl
        exacts [dig_ne_sep ha, dig_ne_sep hb, dig_ne_sep hc, dig_ne_sep hd]
      have hmem3 : ∀ x ∈ [e, f] ++ [nl], x.toNat ≠ 45 := by
        intro x hx; simp at hx
        rcases hx with rfl | rfl | rfl
        exacts [dig_ne_sep he, dig_ne_sep hf, by omega]
      have hsp : pySplit 45 s.toList = [[a, b, c, d], [e, f] ++ [nl]] := by
        rw [hs, show ([a, b, c, d, s1, e, f] : List Char) ++ [nl] =
            [a, b, c, d] ++ s1 :: ([e, f] ++ [nl]) from rfl,
          pySplit_sep_append hmem4 hs1, pySplit_no_sep hmem3]
      have hpy1 : pyIntOpt [a, b, c, d] = some ((digitsVal [a, b, c, d] : Nat) : Int) :=
        pyIntOpt_digits (by simp) hall4
      have hpy2 : pyIntOpt ([e, f] ++ [nl]) = some ((digitsVal [e, f] : Nat) : Int) :=
        pyIntOpt_digits_nl (by simp) hall2 hnl
      have hm1' : (1 : Int) ≤ ((digitsVal [e, f] : Nat) : Int) := by exact_mod_cast hm1
      have hm2' : ((digitsVal [e, f] : Nat) : Int) ≤ 12 := by exact_mod_cast hm2
      refine ⟨?_, ?_, ?_⟩
      · intro p hp
        rw [hsp] at hp; simp at hp
      · intro p q hpq
        rw [hsp] at hpq; simp at hpq
        obtain ⟨hp, hq⟩ := hpq; subst hp; subst hq
        exact ⟨_, _, hpy1, hpy2, hm1', hm2',
          birthdateFilter_month hv hsp hpy1 hpy2 hm1' hm2'⟩
      · intro dt hdt
        unfold fromisoformat at hdt
        rw [hs] at hdt
        exact absurd hdt (by simp [fromisoChars])
    · -- YYYY-MM-DD plus trailing newline
      subst hcs
      refine ⟨?_, ?_, ?_⟩
      · intro p hp
        obtain ⟨ha, hb, hc, hd⟩ := reYear_digits hy
        obtain ⟨he, hf, _, _⟩ := reMonth_val hm
        obtain ⟨hg, hh⟩ := reDay_digits hd2
        have hmem4 : ∀ x ∈ [a, b, c, d], x.toNat ≠ 45 := by
          intro x hx; simp at hx
          rcases hx with rfl | rfl | rfl | rfl
          exacts [dig_ne_sep ha, dig_ne_sep hb, dig_ne_sep hc, dig_ne_sep hd]
        have hmem2 : ∀ x ∈ [e, f], x.toNat ≠ 45 := by
          intro x hx; simp at hx
          rcases hx with rfl | rfl
          exacts [dig_ne_sep he, dig_ne_sep hf]
        have hmem3 : ∀ x ∈ [g, h2] ++ [nl], x.toNat ≠ 45 := by
          intro x hx; simp at hx
          rcases hx with rfl | rfl | rfl
          exacts [dig_ne_sep hg, dig_ne_sep hh, by omega]
        have hsp : pySplit 45 s.toList = [[a, b, c, d], [e, f], [g, h2] ++ [nl]] := by
          rw [hs, show ([a, b, c, d, s1, e, f, s2, g, h2] : List Char) ++ [nl] =
              [a, b, c, d] ++ s1 :: ([e, f] ++ s2 :: ([g, h2] ++ [nl])) from rfl,
            pySplit_sep_append hmem4 hs1, pySplit_sep_append hmem2 hs2, pySplit_no_sep hmem3]
        rw [hsp] at hp; simp at hp
      · intro p q hpq
        obtain ⟨ha, hb, hc, hd⟩ := reYear_digits hy
        obtain ⟨he, hf, _, _⟩ := reMonth_val hm
        obtain ⟨hg, hh⟩ := reDay_digits hd2
        have hmem4 : ∀ x ∈ [a, b, c, d], x.toNat ≠ 45 := by
          intro x hx; simp at hx
          rcases hx with rfl | rfl | rfl | rfl
          exacts [dig_ne_sep ha, dig_ne_sep hb, dig_ne_sep hc, dig_ne_sep hd]
        have hmem2 : ∀ x ∈ [e, f], x.toNat ≠ 45 := by
          intro x hx; simp at hx
          rcases hx with rfl | rfl
          exacts [dig_ne_sep he, dig_ne_sep hf]
        have hmem3 : ∀ x ∈ [g, h2] ++ [nl], x.toNat ≠ 45 := by
          intro x hx; simp at hx
          rcases hx with rfl | rfl | rfl
          exacts [dig_ne_sep hg, dig_ne_sep hh, by omega]
        have hsp : pySplit 45 s.toList = [[a, b, c, d], [e, f], [g, h2] ++ [nl]] := by
          rw [hs, show ([a, b, c, d, s1, e, f, s2, g, h2] : List Char) ++ [nl] =
              [a, b, c, d] ++ s1 :: ([e, f] ++ s2 :: ([g, h2] ++ [nl])) from rfl,
            pySplit_sep_append hmem4 hs1, pySplit_sep_append hmem2 hs2, pySplit_no_sep hmem3]
        rw [hsp] at hpq; simp at hpq
      · intro dt hdt
        unfold fromisoformat at hdt
        rw [hs] at hdt
        exact absurd hdt (by simp [fromisoChars])



/-! ### Further helper lemmas -/

theorem strptimeYmd_eq_none_of_parts {s : String}
    (h : (pySplit 45 s.toList).length ≠ 3) : strptimeYmd s = none := by
  unfold strptimeYmd
  rcases hsp : pySplit 45 s.toList with _ | ⟨p, _ | ⟨q, _ | ⟨r, _ | ⟨t, rest⟩⟩⟩⟩
  · rfl
  · rfl
  · rfl
  · rw [hsp] at h; simp at h
  · rfl

theorem reYear_eq_spec (a b c d : Char) : reYear a b c d = specYear4 a b c d := by
  rw [Bool.eq_iff_iff]
  simp [reYear, specYear4, dig, nzdig]
  omega

theorem reMonth_eq_spec (a b : Char) : reMonth a b = specMonth2 a b := by
  rw [Bool.eq_iff_iff]
  simp [reMonth, specMonth2, dig, nzdig]
  omega

theorem reDay_eq_spec (a b : Char) : reDay a b = specDay2 a b := by
  rw [Bool.eq_iff_iff]
  simp [reDay, specDay2, dig, nzdig]
  omega

theorem fhirDateCore_eq_spec (cs : List Char) : fhirDateCore cs = fhirSpecCore cs := by
  rcases cs with _ | ⟨a, _ | ⟨b, _ | ⟨c, _ | ⟨d, _ | ⟨s1, _ | ⟨e, _ | ⟨f, _ |
    ⟨s2, _ | ⟨g, _ | ⟨h2, _ | ⟨k, rest⟩⟩⟩⟩⟩⟩⟩⟩⟩⟩⟩ <;>
    simp [fhirDateCore, fhirSpecCore, reYear_eq_spec, reMonth_eq_spec, reDay_eq_spec]

/-! ### Claim theorems -/

/-- C1: In the patient birthdate search, expanding a partial date to a range is
calendar-correct: every valid year-only value constrains `date_of_birth` to the
inclusive range from January 1 to December 31 of that year; every valid
year-month value constrains it to the range from the first day of the month to
its last day, where the last day is `daysInMonth` of that month and year
(leap-year February included); and every valid full date yields an equality
constraint with that date. -/
theorem birthdate_search_range_expansion (s : String) (hv : validate_fhir_date s = true) :
    (∀ p, pySplit 45 s.toList = [p] →
      ∃ y, pyIntOpt p = some y ∧ birthdateFilter s = .range ⟨y, 1, 1⟩ ⟨y, 12, 31⟩) ∧
    (∀ p q, pySplit 45 s.toList = [p, q] →
      ∃ y m, pyIntOpt p = some y ∧ pyIntOpt q = some m ∧ 1 ≤ m ∧ m ≤ 12 ∧
        birthdateFilter s = .range ⟨y, m, 1⟩ ⟨y, m, daysInMonth y m⟩) ∧
    (∀ d, fromisoformat s = some d → birthdateFilter s = .eq d) :=
  birthdateFilter_expansion s hv

/-- Witness for C1 at the concrete leap-year input `2024-02`. -/
theorem birthdate_search_range_expansion_witness :
    validate_fhir_date "2024-02" = true ∧
    birthdateFilter "2024-02" = .range ⟨2024, 2, 1⟩ ⟨2024, 2, 29⟩ := by
  refine ⟨by decide, ?_⟩
  obtain ⟨y, m, hy, hm, _, _, hf⟩ :=
    (birthdate_search_range_expansion "2024-02" (by decide)).2.1
      "2024".toList "02".toList (by decide)
  rw [show pyIntOpt "2024".toList = some 2024 from by decide] at hy
  rw [show pyIntOpt "02".toList = some 2 from by decide] at hm
  obtain rfl : (2024 : Int) = y := Option.some.inj hy
  obtain rfl : (2 : Int) = m := Option.some.inj hm
  rw [show daysInMonth 2024 2 = 29 from by decide] at hf
  exact hf

/-- C2 counterexample: the observation search does not accept a partial date
as range bounds; `date=2024` is rejected with the invalid-date-format error,
contradicting the claim that partial dates are evaluated as range predicates
on the observation tables. -/
theorem observation_search_partial_date_cx :
    search_observations [] [] none none (some "2024") = .err .invalidDateFormat := by
  decide

/-- C2 (amended): the patient birthdate search evaluates partial dates as a
pair of inclusive range bounds and full dates as an equality; the observation
search, by contrast, accepts only full `YYYY-MM-DD` dates — any value that
does not split into three dash-separated parts fails `strptime` and the
search returns the 400 invalid-date-format error — and a full date is
evaluated as an equality constraint on the observation date column. -/
theorem observation_search_date_semantics :
    (∀ s : String, (pySplit 45 s.toList).length ≠ 3 → strptimeYmd s = none) ∧
    (∀ (bpRows : List BPRow) (hrRows : List HRRow) (patient code : Option String)
      (s : String), s ≠ "" → strptimeYmd s = none →
      search_observations bpRows hrRows patient code (some s) = .err .invalidDateFormat) ∧
    (∀ (d : PyDate) (row : BPRow),
      ObsQuery.matchesBP ⟨none, some d⟩ row = decide (row.date = d)) ∧
    (∀ (d : PyDate) (row : HRRow),
      ObsQuery.matchesHR ⟨none, some d⟩ row = decide (row.date = d)) ∧
    (∀ s : String, validate_fhir_date s = true →
      (pySplit 45 s.toList).length = 1 ∨ (pySplit 45 s.toList).length = 2 →
      ∃ lo hi, birthdateFilter s = .range lo hi ∧
        ∀ dob, (BirthdateFilter.range lo hi).applyTo dob = (lo.le dob && dob.le hi)) ∧
    (∀ (s : String) (d : PyDate), validate_fhir_date s = true → fromisoformat s = some d →
      birthdateFilter s = .eq d ∧
        ∀ dob, ((BirthdateFilter.eq d).applyTo dob = true ↔ dob = d)) := by
  refine ⟨?_, ?_, ?_, ?_, ?_, ?_⟩
  · intro s h
    exact strptimeYmd_eq_none_of_parts h
  · intro bpRows hrRows patient code s hne hst
    unfold search_observations parse_search_date
    simp [hne, hst]
  · intro d row
    simp [ObsQuery.matchesBP]
  · intro d row
    simp [ObsQuery.matchesHR]
  · intro s hv hl
    rcases hl with h1 | h2
    · obtain ⟨p, hp⟩ := List.length_eq_one.mp h1
      obtain ⟨y, _, hf⟩ := (birthdateFilter_expansion s hv).1 p hp
      exact ⟨_, _, hf, fun dob => rfl⟩
    · obtain ⟨p, q, hpq⟩ := List.length_eq_two.mp h2
      obtain ⟨y, m, _, _, _, _, hf⟩ := (birthdateFilter_expansion s hv).2.1 p q hpq
      exact ⟨_, _, hf, fun dob => rfl⟩
  · intro s d hv hiso
    refine ⟨(birthdateFilter_expansion s hv).2.2 d hiso, ?_⟩
    intro dob
    simp [BirthdateFilter.applyTo]

/-- Witness for C2 at the concrete partial input `2024-02`. -/
theorem observation_search_date_semantics_witness :
    search_observations [] [] none none (some "2024-02") = .err .invalidDateFormat :=
  observation_search_date_semantics.2.1 [] [] none none "2024-02" (by decide) (by decide)

/-- C3: for a create-patient request that passes the name validation, a
syntactically valid partial birth date (one that does not split into three
parts) is rejected with the 400 partial-dates-not-supported error, and a
full-form birth date that is not a real calendar day is rejected with the
400 invalid-birth-date error; in both cases the outcome is a rejection, so
no insert is attempted. -/
theorem create_patient_partial_and_invalid_dates (fam g0 : String) (gs : List String)
    (rest : List HumanName) (s : String) (hfam : fam ≠ "") :
    (validate_fhir_date s = true → (pySplit 45 s.toList).length ≠ 3 →
      create_patient ⟨⟨some fam, g0 :: gs⟩ :: rest, some (.str s)⟩ =
        .reject 400 "Partial dates not supported") ∧
    (validate_fhir_date s = true → (pySplit 45 s.toList).length = 3 →
      fromisoChars s.toList = none →
      create_patient ⟨⟨some fam, g0 :: gs⟩ :: rest, some (.str s)⟩ =
        .reject 400 "Invalid birth date") := by
  constructor
  · intro hv hlen
    have hlen' : (pySplit 45 s.data).length ≠ 3 := hlen
    unfold create_patient validateBirthDateStr
    simp [hfam, hv, hlen, hlen']
  · intro hv hlen hiso
    have hlen' : (pySplit 45 s.data).length = 3 := hlen
    have hiso' : fromisoChars s.data = none := hiso
    unfold create_patient validateBirthDateStr
    simp [hfam, hv, hlen, hlen', hiso, hiso']

/-- Witness for C3 at the concrete inputs `2023` and `2023-02-30`. -/
theorem create_patient_partial_and_invalid_dates_witness :
    create_patient ⟨[⟨some "Doe", ["Jo"]⟩], some (.str "2023")⟩ =
      .reject 400 "Partial dates not supported" ∧
    create_patient ⟨[⟨some "Doe", ["Jo"]⟩], some (.str "2023-02-30")⟩ =
      .reject 400 "Invalid birth date" := by
  constructor
  · exact (create_patient_partial_and_invalid_dates "Doe" "Jo" [] [] "2023"
      (by decide)).1 (by decide) (by decide)
  · exact (create_patient_partial_and_invalid_dates "Doe" "Jo" [] [] "2023-02-30"
      (by decide)).2 (by decide) (by decide) (by decide)

/-- C4 counterexample: the empty string is a supplied code that differs from
both tables' fixed codes, yet it excludes neither table — Python's
truthiness guard `code and code != ...` treats `""` as absent. -/
theorem observation_code_exclusion_cx :
    ("" : String) ≠ "85354-9" ∧ ("" : String) ≠ "8867-4" ∧
    build_bp_query none none (some "") = some ⟨none, none⟩ ∧
    build_hr_query none none (some "") = some ⟨none, none⟩ :=
  ⟨by decide, by decide, by decide, by decide⟩

/-- C4 (amended): a search carrying `code=8867-4` excludes the blood-pressure
table entirely — its query is the excluded marker, the search result does not
depend on the blood-pressure rows at all — while the heart-rate query is
exactly the one built from the patient and date filters alone; symmetrically,
any supplied non-empty code different from a table's fixed code excludes that
table (the empty string is treated as an absent filter). -/
theorem observation_code_exclusion :
    (∀ pid sd, build_bp_query pid sd (some "8867-4") = none) ∧
    (∀ pid sd, build_hr_query pid sd (some "8867-4") = build_hr_query pid sd none) ∧
    (∀ (bpRows bpRows' : List BPRow) (hrRows : List HRRow) (patient date : Option String),
      search_observations bpRows hrRows patient (some "8867-4") date =
        search_observations bpRows' hrRows patient (some "8867-4") date) ∧
    (∀ pid sd (c : String), c ≠ "" → c ≠ "85354-9" →
      build_bp_query pid sd (some c) = none) ∧
    (∀ pid sd (c : String), c ≠ "" → c ≠ "8867-4" →
      build_hr_query pid sd (some c) = none) := by
  have hbp : ∀ pid sd, build_bp_query pid sd (some "8867-4") = none := by
    intro pid sd
    unfold build_bp_query
    rw [show codeMismatch (some "8867-4") "85354-9" = true from by decide]
    simp
  refine ⟨hbp, ?_, ?_, ?_, ?_⟩
  · intro pid sd
    unfold build_hr_query
    rw [show codeMismatch (some "8867-4") "8867-4" = false from by decide,
      show codeMismatch none "8867-4" = false from rfl]
  · intro bpRows bpRows' hrRows patient date
    unfold search_observations
    cases parse_search_date date with
    | err e => rfl
    | ok sd =>
      cases parse_patient_ref patient with
      | err e => rfl
      | ok pid => simp [hbp pid sd]
  · intro pid sd c hc1 hc2
    unfold build_bp_query codeMismatch
    simp [hc1, hc2]
  · intro pid sd c hc1 hc2
    unfold build_hr_query codeMismatch
    simp [hc1, hc2]

/-- Witness for C4 at a concrete code that matches neither table. -/
theorem observation_code_exclusion_witness :
    build_bp_query (some 7) none (some "1234-5") = none ∧
    build_hr_query (some 7) none (some "1234-5") = none := by
  constructor
  · exact observation_code_exclusion.2.2.2.1 (some 7) none "1234-5" (by decide) (by decide)
  · exact observation_code_exclusion.2.2.2.2 (some 7) none "1234-5" (by decide) (by decide)

/-- C5 counterexample: an explicitly supplied empty diagnostic is replaced by
the message — `diagnostic or detail` treats the empty string as absent — so
the diagnostics field does not equal the supplied diagnostic. -/
theorem operation_outcome_empty_diagnostic_cx :
    (create_operation_outcome 400 "msg" (some "")).1.diagnostics = "msg" ∧
    ("msg" : String) ≠ "" :=
  ⟨rfl, by decide⟩

/-- C5 (amended): for every status code and message the outcome builder
produces exactly the severity and code the status class dictates (≥ 500
fatal/exception; 4xx error with not-found/invalid/forbidden/security by exact
status, processing otherwise; < 400 warning/informational), the details text
is the message, the status is passed through, and the diagnostics field
equals the supplied diagnostic when it is present and non-empty, otherwise
the message. -/
theorem operation_outcome_fields_spec (st : Nat) (detail : String) (diag : Option String) :
    create_operation_outcome st detail diag =
      (⟨specSeverity st, specCode st, specDiagnostics diag detail, detail⟩, st) := by
  unfold create_operation_outcome specSeverity specCode specDiagnostics pyOrStr
  rcases diag with _ | s
  · split_ifs <;> first | rfl | (exfalso; omega)
  · split_ifs <;> first | rfl | (exfalso; omega) | simp_all

/-- C6: the observation mappers preserve the measured values — a
blood-pressure row maps to exactly two components carrying the systolic and
diastolic values with unit mmHg (and no top-level quantity), and a heart-rate
row maps to a single value quantity carrying the rate with unit beats/minute
(and no components). -/
theorem observation_mapper_values (bp : BPRow) (hr : HRRow) :
    (bp_to_observation bp).component.map
        (fun c => (c.valueQuantity.value, c.valueQuantity.unit)) =
      [(bp.systolic, "mmHg"), (bp.diastolic, "mmHg")] ∧
    (bp_to_observation bp).valueQuantity = none ∧
    (hr_to_observation hr).component = [] ∧
    (hr_to_observation hr).valueQuantity =
      some ⟨hr.rate, "beats/minute", "http://unitsofmeasure.org", "/min"⟩ :=
  ⟨rfl, rfl, rfl, rfl⟩

/-- C7: `to_bundle` returns a bundle whose total is the length of the input
list and whose entries wrap each input resource in order; the empty list
yields total zero and an empty entry sequence. -/
theorem to_bundle_total_and_order (α : Type) (rs : List α) (t : String) :
    (to_bundle rs t).total = rs.length ∧
    (to_bundle rs t).entry = rs.map BundleEntry.mk ∧
    to_bundle ([] : List α) t = ⟨t, 0, []⟩ :=
  ⟨rfl, rfl, rfl⟩

/-- C8 counterexample: a resource with a valid name and no birth date at all
is not rejected before reaching storage — `create_patient` skips all date
validation and reaches the insert step with a null `date_of_birth`, which
only the database's non-null constraint can stop. -/
theorem create_patient_missing_birthdate_cx :
    create_patient ⟨[⟨some "Doe", ["Jo"]⟩], none⟩ = .insert "Jo" "Doe" none := by decide

/-- C8 (amended): the create path rejects a resource before any insert when
its name list is empty, the first entry's family is missing or empty, or the
first entry's given list is empty; when a birth date is present it must pass
the format, strictness and calendar checks or the request is rejected before
storage (an unrecognized birth-date representation is rejected with a 500);
but a resource with no birth date at all is not rejected — the insert is
attempted with a null `date_of_birth` and can only fail inside storage. -/
theorem create_patient_validation_gate :
    (∀ bd, create_patient ⟨[], bd⟩ = .reject 400 "Invalid Patient resource") ∧
    (∀ gs rest bd, create_patient ⟨⟨none, gs⟩ :: rest, bd⟩ =
      .reject 400 "Invalid Patient resource") ∧
    (∀ gs rest bd, create_patient ⟨⟨some "", gs⟩ :: rest, bd⟩ =
      .reject 400 "Invalid Patient resource") ∧
    (∀ (fam : String) rest bd, fam ≠ "" →
      create_patient ⟨⟨some fam, []⟩ :: rest, bd⟩ = .reject 400 "Invalid Patient resource") ∧
    (∀ (fam g0 : String) gs rest (s : String), fam ≠ "" → validate_fhir_date s = false →
      create_patient ⟨⟨some fam, g0 :: gs⟩ :: rest, some (.str s)⟩ =
        .reject 400 "Invalid birthDate format") ∧
    (∀ (fam g0 : String) gs rest, fam ≠ "" →
      create_patient ⟨⟨some fam, g0 :: gs⟩ :: rest, some .other⟩ =
        .reject 500 "Internal Server Error") ∧
    (∀ (fam g0 : String) gs rest, fam ≠ "" →
      create_patient ⟨⟨some fam, g0 :: gs⟩ :: rest, none⟩ = .insert g0 fam none) := by
  refine ⟨fun bd => rfl, fun gs rest bd => rfl, fun gs rest bd => rfl, ?_, ?_, ?_, ?_⟩
  · intro fam rest bd hfam
    unfold create_patient
    simp [hfam]
  · intro fam g0 gs rest s hfam hv
    unfold create_patient validateBirthDateStr
    simp [hfam, hv]
  · intro fam g0 gs rest hfam
    unfold create_patient
    simp [hfam]
  · intro fam g0 gs rest hfam
    unfold create_patient
    simp [hfam]

/-- Witness for C8 at concrete resources: a first name entry with an empty
given list is rejected, and a valid name with no birth date reaches the
insert step with a null date. -/
theorem create_patient_validation_gate_witness :
    create_patient ⟨[⟨some "Doe", []⟩], none⟩ = .reject 400 "Invalid Patient resource" ∧
    create_patient ⟨[⟨some "Smith", ["Ann"]⟩], none⟩ = .insert "Ann" "Smith" none := by
  constructor
  · exact create_patient_validation_gate.2.2.2.1 "Doe" [] none (by decide)
  · exact create_patient_validation_gate.2.2.2.2.2.2 "Smith" "Ann" [] [] (by decide)

/-- C9 counterexample: the format validator rejects the three-digit year
string `999`, contradicting the claim that 1–3 digit years are accepted. -/
theorem validate_fhir_date_three_digit_year_cx : validate_fhir_date "999" = false := by
  decide

/-- C9 (amended): the FHIR date format validator accepts exactly the strings
consisting of a four-digit year other than `0000`, optionally followed by
`-MM` with a two-digit month of value 1 to 12, optionally further followed by
`-DD` with a two-digit day of value 1 to 31 (with the one quirk that a single
trailing newline is tolerated, an artifact of the anchored `re.match`);
in particular 1-, 2- and 3-digit years are rejected. -/
theorem validate_fhir_date_grammar (s : String) : validate_fhir_date s = fhir_date_spec s := by
  unfold validate_fhir_date fhir_date_spec
  rw [fhirDateCore_eq_spec]
  cases hrev : s.toList.reverse with
  | nil => rfl
  | cons c rest => simp [fhirDateCore_eq_spec]

/-- C10: the reference `Patient/0` passes the observation search's reference
validation and parses to patient id 0, yet the truthiness guard drops the
filter, so the search returns every observation of both tables unchanged. -/
theorem patient_zero_truthiness_search (bpRows : List BPRow) (hrRows : List HRRow) :
    parse_patient_ref (some "Patient/0") = .ok (some 0) ∧
    search_observations bpRows hrRows (some "Patient/0") none none =
      .ok (to_bundle (bpRows.map bp_to_observation ++ hrRows.map hr_to_observation)
        "searchset") := by
  refine ⟨by decide, ?_⟩
  have h1 : parse_search_date none = .ok none := rfl
  have h2 : parse_patient_ref (some "Patient/0") = .ok (some 0) := by decide
  have h3 : build_bp_query (some 0) none none = some ⟨none, none⟩ := by decide
  have h4 : build_hr_query (some 0) none none = some ⟨none, none⟩ := by decide
  simp only [search_observations, h1, h2, h3, h4]
  have hbp : ∀ r : BPRow, ObsQuery.matchesBP ⟨none, none⟩ r = true := fun r => rfl
  have hhr : ∀ r : HRRow, ObsQuery.matchesHR ⟨none, none⟩ r = true := fun r => rfl
  rw [List.filter_eq_self.mpr (fun r _ => hbp r), List.filter_eq_self.mpr (fun r _ => hhr r)]
